import Mathlib

/-!
Verification of the HealthSecure on-chain core: a shallow embedding of
`AccessControl.sol` and `MedicalRecordRegistry.sol` (Solidity ^0.8.20).

Modelling choices:
* Addresses, `uint256` values and `bytes32` hashes are `Nat`.  Solidity 0.8
  uses checked arithmetic (an overflowing `block.timestamp + durationSeconds`
  reverts, leaving state unchanged); the only addition in the core is that
  timestamp sum, which we model with exact `Nat` arithmetic.
* Solidity mappings are total functions with the zero-value default, exactly
  as EVM storage behaves; each struct carries its `exists` flag as in source.
* The identity contract is abstracted to the two query predicates
  `isPatient` / `isVerifiedDoctor` that the two contracts under study call,
  passed in as a read-only capability (they never fail, per the interface).
* Each external function becomes a Lean function; mutators return
  `Except Err α × State` where an `error` result is a revert: the `require`
  checks are translated in source order before any state write, so the
  returned state on failure is the input state, mirroring check-then-commit.
* `view` functions return plain values (no state component): purity is
  structural.
-/

namespace HealthSecure

abbrev Address := Nat

/-- The identity contract as seen by `AccessControl` and
`MedicalRecordRegistry`: only its two boolean query predicates. -/
structure Identity where
  isPatient : Address → Bool
  isVerifiedDoctor : Address → Bool

/-- Pointwise update of a one-key mapping. -/
def updFn {β : Type} (m : Address → β) (a : Address) (v : β) : Address → β :=
  fun x => if x = a then v else m x

/-- Pointwise update of a two-key mapping. -/
def updFn2 {β : Type} (m : Address → Address → β) (a b : Address) (v : β) :
    Address → Address → β :=
  fun x y => if x = a ∧ y = b then v else m x y

/-- Embedding of `struct AccessGrant` from `AccessControl.sol`. -/
structure AccessGrant where
  isGranted : Bool
  grantedAt : Nat
  expiresAt : Nat
  exists_ : Bool
deriving DecidableEq, Repr

/-- The zero value a Solidity mapping returns for an absent key. -/
def AccessGrant.zero : AccessGrant :=
  { isGranted := false, grantedAt := 0, expiresAt := 0, exists_ := false }

/-- Storage of the `AccessControl` contract. -/
structure ACState where
  accessGrants : Address → Address → AccessGrant
  patientDoctors : Address → List Address
  doctorPatients : Address → List Address

/-- Freshly deployed `AccessControl` storage. -/
def ACState.init : ACState :=
  { accessGrants := fun _ _ => AccessGrant.zero
    patientDoctors := fun _ => []
    doctorPatients := fun _ => [] }

/-- Revert reasons of `AccessControl` (one per `require` string). -/
inductive ACErr where
  | onlyPatientsCanGrant
  | targetNotVerifiedDoctor
  | onlyPatientsCanRevoke
  | noAccessGrantFound
deriving DecidableEq, Repr

/-- Embedding of `grantAccess(doctorAddress, durationSeconds)`; `caller` is `msg.sender`,
`now` is `block.timestamp`. -/
def grantAccess (ident : Identity) (caller doctorAddress : Address)
    (durationSeconds now : Nat) (s : ACState) : Except ACErr Unit × ACState :=
  if ident.isPatient caller = false then
    (.error .onlyPatientsCanGrant, s)
  else if ident.isVerifiedDoctor doctorAddress = false then
    (.error .targetNotVerifiedDoctor, s)
  else
    let expiresAt := if durationSeconds > 0 then now + durationSeconds else 0
    let isNewGrant := (s.accessGrants caller doctorAddress).exists_ = false
    let newGrant : AccessGrant :=
      { isGranted := true, grantedAt := now, expiresAt := expiresAt,
        exists_ := true }
    let s1 : ACState :=
      { s with accessGrants := updFn2 s.accessGrants caller doctorAddress newGrant }
    let s2 : ACState :=
      if isNewGrant then
        { s1 with
            patientDoctors := updFn s1.patientDoctors caller
              (s1.patientDoctors caller ++ [doctorAddress])
            doctorPatients := updFn s1.doctorPatients doctorAddress
              (s1.doctorPatients doctorAddress ++ [caller]) }
      else s1
    (.ok (), s2)

/-- Embedding of `revokeAccess(doctorAddress)`. -/
def revokeAccess (ident : Identity) (caller doctorAddress : Address)
    (s : ACState) : Except ACErr Unit × ACState :=
  if ident.isPatient caller = false then
    (.error .onlyPatientsCanRevoke, s)
  else if (s.accessGrants caller doctorAddress).exists_ = false then
    (.error .noAccessGrantFound, s)
  else
    let revokedGrant : AccessGrant :=
      { s.accessGrants caller doctorAddress with isGranted := false }
    (.ok (),
      { s with accessGrants := updFn2 s.accessGrants caller doctorAddress revokedGrant })

/-- Embedding of `hasAccess(patientAddress, doctorAddress)` (view). -/
def hasAccess (s : ACState) (patientAddress doctorAddress : Address)
    (now : Nat) : Bool :=
  let grant := s.accessGrants patientAddress doctorAddress
  if grant.exists_ = false ∨ grant.isGranted = false then false
  else if grant.expiresAt > 0 ∧ now > grant.expiresAt then false
  else true

/-- Embedding of `getAccessGrant(patientAddress, doctorAddress)` (view): returns
`(isGranted, grantedAt, expiresAt, isExpired)`. -/
def getAccessGrant (s : ACState) (patientAddress doctorAddress : Address)
    (now : Nat) : Bool × Nat × Nat × Bool :=
  let grant := s.accessGrants patientAddress doctorAddress
  let expired := decide (grant.expiresAt > 0 ∧ now > grant.expiresAt)
  (grant.isGranted && !expired, grant.grantedAt, grant.expiresAt, expired)

/-- Embedding of `getPatientDoctors(patientAddress)` (view). -/
def getPatientDoctors (s : ACState) (patientAddress : Address) : List Address :=
  s.patientDoctors patientAddress

/-- Embedding of `getDoctorPatients(doctorAddress)` (view). -/
def getDoctorPatients (s : ACState) (doctorAddress : Address) : List Address :=
  s.doctorPatients doctorAddress

/-- Embedding of `getActivePatientCount(doctorAddress)` (view): the source's counting loop
over the doctor's patient list, rendered as a fold. -/
def getActivePatientCount (s : ACState) (doctorAddress : Address)
    (now : Nat) : Nat :=
  (s.doctorPatients doctorAddress).foldl
    (fun activeCount p =>
      let grant := s.accessGrants p doctorAddress
      if grant.isGranted = true then
        if grant.expiresAt = 0 ∨ now ≤ grant.expiresAt then activeCount + 1
        else activeCount
      else activeCount) 0

/-- Embedding of `enum RecordType` from `MedicalRecordRegistry.sol`. -/
inductive RecordType where
  | PRESCRIPTION
  | LAB_REPORT
  | DIAGNOSIS
  | IMAGING
  | PROCEDURE
  | CONSULTATION
  | FOLLOWUP
deriving DecidableEq, Repr

/-- Embedding of `struct RecordEntry` from `MedicalRecordRegistry.sol`. -/
structure RecordEntry where
  recordHash : Nat
  ipfsCid : String
  patient : Address
  doctor : Address
  recordType : RecordType
  isVisible : Bool
  createdAt : Nat
  exists_ : Bool
deriving DecidableEq, Repr

/-- The zero value of `RecordEntry` (absent mapping key). -/
def RecordEntry.zero : RecordEntry :=
  { recordHash := 0, ipfsCid := "", patient := 0, doctor := 0,
    recordType := .PRESCRIPTION, isVisible := false, createdAt := 0,
    exists_ := false }

/-- Storage of the `MedicalRecordRegistry` contract. -/
structure RegState where
  records : Nat → RecordEntry
  recordCount : Nat
  patientRecords : Address → List Nat
  doctorRecords : Address → List Nat

/-- Freshly deployed `MedicalRecordRegistry` storage. -/
def RegState.init : RegState :=
  { records := fun _ => RecordEntry.zero
    recordCount := 0
    patientRecords := fun _ => []
    doctorRecords := fun _ => [] }

/-- Revert reasons of `MedicalRecordRegistry`. -/
inductive RegErr where
  | onlyVerifiedDoctorsCanCreate
  | patientNotRegistered
  | recordNotFound
  | onlyPatientCanToggle
  | accessDenied
deriving DecidableEq, Repr

/-- Pointwise update of the record mapping (keyed by record id). -/
def updRec (m : Nat → RecordEntry) (i : Nat) (v : RecordEntry) :
    Nat → RecordEntry :=
  fun j => if j = i then v else m j

/-- Embedding of `createRecord(patientAddress, recordHash, ipfsCid, recordType)`;
returns the new record id on success. -/
def createRecord (ident : Identity) (caller patientAddress : Address)
    (recordHash : Nat) (ipfsCid : String) (recordType : RecordType)
    (now : Nat) (s : RegState) : Except RegErr Nat × RegState :=
  if ident.isVerifiedDoctor caller = false then
    (.error .onlyVerifiedDoctorsCanCreate, s)
  else if ident.isPatient patientAddress = false then
    (.error .patientNotRegistered, s)
  else
    let recordId := s.recordCount
    let s1 : RegState :=
      { records := updRec s.records recordId
          { recordHash := recordHash, ipfsCid := ipfsCid,
            patient := patientAddress, doctor := caller,
            recordType := recordType, isVisible := true, createdAt := now,
            exists_ := true }
        recordCount := s.recordCount + 1
        patientRecords := updFn s.patientRecords patientAddress
          (s.patientRecords patientAddress ++ [recordId])
        doctorRecords := updFn s.doctorRecords caller
          (s.doctorRecords caller ++ [recordId]) }
    (.ok recordId, s1)

/-- Embedding of `toggleVisibility(recordId)`. -/
def toggleVisibility (caller : Address) (recordId : Nat) (s : RegState) :
    Except RegErr Unit × RegState :=
  if (s.records recordId).exists_ = false then
    (.error .recordNotFound, s)
  else if (s.records recordId).patient ≠ caller then
    (.error .onlyPatientCanToggle, s)
  else
    let toggled : RecordEntry :=
      { s.records recordId with isVisible := !(s.records recordId).isVisible }
    (.ok (), { s with records := updRec s.records recordId toggled })

/-- Embedding of `verifyRecord(recordId, providedHash)` (view). -/
def verifyRecord (recordId providedHash : Nat) (s : RegState) :
    Except RegErr Bool :=
  if (s.records recordId).exists_ = false then .error .recordNotFound
  else .ok ((s.records recordId).recordHash == providedHash)

/-- Embedding of `getRecord(recordId)` (view): the returned tuple is
`(recordHash, ipfsCid, patient, doctor, recordType, isVisible, createdAt)`. -/
def getRecord (caller : Address) (recordId : Nat) (s : RegState) :
    Except RegErr (Nat × String × Address × Address × RecordType × Bool × Nat) :=
  if (s.records recordId).exists_ = false then .error .recordNotFound
  else
    let record := s.records recordId
    if record.patient = caller ∨ record.doctor = caller ∨
        record.isVisible = true then
      .ok (record.recordHash, record.ipfsCid, record.patient, record.doctor,
        record.recordType, record.isVisible, record.createdAt)
    else .error .accessDenied

/-- Embedding of `getPatientRecordIds(patient)` (view). -/
def getPatientRecordIds (s : RegState) (patient : Address) : List Nat :=
  s.patientRecords patient

/-- Embedding of `getDoctorRecordIds(doctor)` (view). -/
def getDoctorRecordIds (s : RegState) (doctor : Address) : List Nat :=
  s.doctorRecords doctor

/-- Embedding of `getVisiblePatientRecords(patient)` (view): the source's fill loop over
the patient's id list, appending each visible id in order. -/
def getVisiblePatientRecords (s : RegState) (patient : Address) : List Nat :=
  (s.patientRecords patient).foldl
    (fun visibleRecords i =>
      if (s.records i).isVisible = true then visibleRecords ++ [i]
      else visibleRecords) []

/-- Embedding of `getTotalRecords()` (view). -/
def getTotalRecords (s : RegState) : Nat := s.recordCount

/-- States of the `AccessControl` contract reachable from deployment by its
two mutators, called with arbitrary identities, arguments and timestamps. -/
inductive ACReachable : ACState → Prop where
  | init : ACReachable ACState.init
  | grant (ident : Identity) (caller doctorAddress : Address)
      (durationSeconds now : Nat) (s : ACState) : ACReachable s →
      ACReachable (grantAccess ident caller doctorAddress durationSeconds now s).2
  | revoke (ident : Identity) (caller doctorAddress : Address) (s : ACState) :
      ACReachable s →
      ACReachable (revokeAccess ident caller doctorAddress s).2

/-- States of the `MedicalRecordRegistry` contract reachable from deployment
by its two mutators. -/
inductive RegReachable : RegState → Prop where
  | init : RegReachable RegState.init
  | create (ident : Identity) (caller patientAddress : Address)
      (recordHash : Nat) (ipfsCid : String) (recordType : RecordType)
      (now : Nat) (s : RegState) : RegReachable s →
      RegReachable
        (createRecord ident caller patientAddress recordHash ipfsCid recordType now s).2
  | toggle (caller : Address) (recordId : Nat) (s : RegState) :
      RegReachable s → RegReachable (toggleVisibility caller recordId s).2

/-- Storage invariant of `AccessControl`: a pair has a grant record iff it
appears in both reverse-index lists, the lists are duplicate-free, and an
absent grant record still holds the mapping's zero value. -/
structure ACInv (s : ACState) : Prop where
  mem_pd : ∀ p d, (s.accessGrants p d).exists_ = true ↔ d ∈ s.patientDoctors p
  mem_dp : ∀ p d, (s.accessGrants p d).exists_ = true ↔ p ∈ s.doctorPatients d
  nodup_pd : ∀ p, (s.patientDoctors p).Nodup
  nodup_dp : ∀ d, (s.doctorPatients d).Nodup
  zero_absent : ∀ p d,
    (s.accessGrants p d).exists_ = false → s.accessGrants p d = AccessGrant.zero

/-- The record entry written by a successful `createRecord`. -/
def createdEntry (caller patientAddress : Address) (recordHash : Nat)
    (ipfsCid : String) (recordType : RecordType) (now : Nat) : RecordEntry :=
  { recordHash := recordHash, ipfsCid := ipfsCid, patient := patientAddress,
    doctor := caller, recordType := recordType, isVisible := true,
    createdAt := now, exists_ := true }

/-- The state after a successful `createRecord`. -/
def createWriteState (s : RegState) (caller patientAddress : Address)
    (e : RecordEntry) : RegState :=
  { records := updRec s.records s.recordCount e
    recordCount := s.recordCount + 1
    patientRecords := updFn s.patientRecords patientAddress
      (s.patientRecords patientAddress ++ [s.recordCount])
    doctorRecords := updFn s.doctorRecords caller
      (s.doctorRecords caller ++ [s.recordCount]) }

/-- The state after a successful `toggleVisibility`. -/
def toggleWriteState (s : RegState) (recordId : Nat) : RegState :=
  let toggled : RecordEntry :=
    { s.records recordId with isVisible := !(s.records recordId).isVisible }
  { s with records := updRec s.records recordId toggled }

/-- Storage invariant of `MedicalRecordRegistry`: the allocated record ids
are exactly `0, 1, ..., recordCount - 1`. -/
def RegInv (s : RegState) : Prop :=
  ∀ i, (s.records i).exists_ = true ↔ i < s.recordCount

/-- The loop predicate of `getActivePatientCount`: the pair's grant is
currently granted and not expired. -/
def grantActive (s : ACState) (doctorAddress : Address) (now p : Address) : Bool :=
  (s.accessGrants p doctorAddress).isGranted &&
    (decide ((s.accessGrants p doctorAddress).expiresAt = 0) ||
      decide (now ≤ (s.accessGrants p doctorAddress).expiresAt))

/-- The grant record written by a successful `grantAccess`. -/
def writtenGrant (durationSeconds now : Nat) : AccessGrant :=
  { isGranted := true, grantedAt := now,
    expiresAt := if durationSeconds > 0 then now + durationSeconds else 0,
    exists_ := true }

/-- Overwrite one pair's grant record, touching nothing else. -/
def writeGrantState (s : ACState) (caller doctorAddress : Address)
    (g : AccessGrant) : ACState :=
  { s with accessGrants := updFn2 s.accessGrants caller doctorAddress g }

/-- Append a (patient, doctor) pair to both reverse-index lists. -/
def appendPairState (s : ACState) (caller doctorAddress : Address) : ACState :=
  { s with
      patientDoctors := updFn s.patientDoctors caller
        (s.patientDoctors caller ++ [doctorAddress])
      doctorPatients := updFn s.doctorPatients doctorAddress
        (s.doctorPatients doctorAddress ++ [caller]) }

/-- Identity valuation where every address is a registered patient and a
verified doctor (used to instantiate theorems on concrete states). -/
def identAll : Identity :=
  { isPatient := fun _ => true, isVerifiedDoctor := fun _ => true }

/-- Identity valuation with no registered identities. -/
def identNone : Identity :=
  { isPatient := fun _ => false, isVerifiedDoctor := fun _ => false }

/-- Access-control state after patient 1 grants doctor 2 one hour at time 100. -/
def acDemo : ACState := (grantAccess identAll 1 2 3600 100 ACState.init).2

/-- Access-control state after patient 1 permanently grants doctor 3. -/
def acDemoPerm : ACState := (grantAccess identAll 1 3 0 100 ACState.init).2

/-- Registry state after doctor 2 creates a record for patient 1. -/
def regDemo : RegState :=
  (createRecord identAll 2 1 77 "QmDemoCid" .DIAGNOSIS 50 RegState.init).2

/-- State `regDemo` after patient 1 hides record 0. -/
def regDemoHidden : RegState := (toggleVisibility 1 0 regDemo).2

theorem grantAccess_notPatient (ident : Identity) (caller doctorAddress : Address)
    (durationSeconds now : Nat) (s : ACState)
    (hp : ident.isPatient caller = false) :
    grantAccess ident caller doctorAddress durationSeconds now s =
      (.error .onlyPatientsCanGrant, s) := by
  simp [grantAccess, hp]

theorem grantAccess_notDoctor (ident : Identity) (caller doctorAddress : Address)
    (durationSeconds now : Nat) (s : ACState)
    (hp : ident.isPatient caller = true)
    (hd : ident.isVerifiedDoctor doctorAddress = false) :
    grantAccess ident caller doctorAddress durationSeconds now s =
      (.error .targetNotVerifiedDoctor, s) := by
  simp [grantAccess, hp, hd]

theorem grantAccess_ok_new (ident : Identity) (caller doctorAddress : Address)
    (durationSeconds now : Nat) (s : ACState)
    (hp : ident.isPatient caller = true)
    (hd : ident.isVerifiedDoctor doctorAddress = true)
    (hnew : (s.accessGrants caller doctorAddress).exists_ = false) :
    grantAccess ident caller doctorAddress durationSeconds now s =
      (.ok (), appendPairState
        (writeGrantState s caller doctorAddress (writtenGrant durationSeconds now))
        caller doctorAddress) := by
  simp [grantAccess, hp, hd, hnew, writtenGrant, writeGrantState, appendPairState]

theorem grantAccess_ok_old (ident : Identity) (caller doctorAddress : Address)
    (durationSeconds now : Nat) (s : ACState)
    (hp : ident.isPatient caller = true)
    (hd : ident.isVerifiedDoctor doctorAddress = true)
    (hold : (s.accessGrants caller doctorAddress).exists_ = true) :
    grantAccess ident caller doctorAddress durationSeconds now s =
      (.ok (), writeGrantState s caller doctorAddress
        (writtenGrant durationSeconds now)) := by
  simp [grantAccess, hp, hd, hold, writtenGrant, writeGrantState]

theorem revokeAccess_notPatient (ident : Identity) (caller doctorAddress : Address)
    (s : ACState) (hp : ident.isPatient caller = false) :
    revokeAccess ident caller doctorAddress s =
      (.error .onlyPatientsCanRevoke, s) := by
  simp [revokeAccess, hp]

theorem revokeAccess_notFound (ident : Identity) (caller doctorAddress : Address)
    (s : ACState) (hp : ident.isPatient caller = true)
    (hex : (s.accessGrants caller doctorAddress).exists_ = false) :
    revokeAccess ident caller doctorAddress s =
      (.error .noAccessGrantFound, s) := by
  simp [revokeAccess, hp, hex]

theorem revokeAccess_ok (ident : Identity) (caller doctorAddress : Address)
    (s : ACState) (hp : ident.isPatient caller = true)
    (hex : (s.accessGrants caller doctorAddress).exists_ = true) :
    revokeAccess ident caller doctorAddress s =
      (.ok (), writeGrantState s caller doctorAddress
        ({ s.accessGrants caller doctorAddress with isGranted := false })) := by
  simp [revokeAccess, hp, hex, writeGrantState]

theorem nodup_append_one {α : Type} (l : List α) (a : α) (h1 : l.Nodup)
    (h2 : a ∉ l) : (l ++ [a]).Nodup :=
  h1.append (List.nodup_singleton a) (fun x hx hmem => by
    simp at hmem; subst hmem; exact h2 hx)

theorem acInv_init : ACInv ACState.init := by
  refine ⟨?_, ?_, ?_, ?_, ?_⟩ <;> intro p <;>
    simp [ACState.init, AccessGrant.zero]

theorem acInv_grant (ident : Identity) (caller doctorAddress : Address)
    (durationSeconds now : Nat) (s : ACState) (h : ACInv s) :
    ACInv (grantAccess ident caller doctorAddress durationSeconds now s).2 := by
  cases hp : ident.isPatient caller with
  | false =>
    rw [grantAccess_notPatient ident caller doctorAddress durationSeconds now s hp]
    exact h
  | true =>
  cases hd : ident.isVerifiedDoctor doctorAddress with
  | false =>
    rw [grantAccess_notDoctor ident caller doctorAddress durationSeconds now s hp hd]
    exact h
  | true =>
  cases hnew : (s.accessGrants caller doctorAddress).exists_ with
  | false =>
    rw [grantAccess_ok_new ident caller doctorAddress durationSeconds now s hp hd hnew]
    have hmempd : doctorAddress ∉ s.patientDoctors caller := fun hmem =>
      by simp [(h.mem_pd caller doctorAddress).2 hmem] at hnew
    have hmemdp : caller ∉ s.doctorPatients doctorAddress := fun hmem =>
      by simp [(h.mem_dp caller doctorAddress).2 hmem] at hnew
    refine ⟨?_, ?_, ?_, ?_, ?_⟩
    · intro p d
      by_cases hpc : p = caller
      · subst hpc
        by_cases hdc : d = doctorAddress
        · subst hdc
          simp [appendPairState, writeGrantState, updFn2, updFn, writtenGrant]
        · simp [appendPairState, writeGrantState, updFn2, updFn, hdc,
            h.mem_pd p d]
      · simp [appendPairState, writeGrantState, updFn2, updFn, hpc,
          h.mem_pd p d]
    · intro p d
      by_cases hdc : d = doctorAddress
      · subst hdc
        by_cases hpc : p = caller
        · subst hpc
          simp [appendPairState, writeGrantState, updFn2, updFn, writtenGrant]
        · simp [appendPairState, writeGrantState, updFn2, updFn, hpc,
            h.mem_dp p d]
      · simp [appendPairState, writeGrantState, updFn2, updFn, hdc,
          h.mem_dp p d]
    · intro p
      by_cases hpc : p = caller
      · subst hpc
        simpa [appendPairState, writeGrantState, updFn] using
          nodup_append_one _ _ (h.nodup_pd p) hmempd
      · simp [appendPairState, writeGrantState, updFn, hpc, h.nodup_pd p]
    · intro d
      by_cases hdc : d = doctorAddress
      · subst hdc
        simpa [appendPairState, writeGrantState, updFn] using
          nodup_append_one _ _ (h.nodup_dp d) hmemdp
      · simp [appendPairState, writeGrantState, updFn, hdc, h.nodup_dp d]
    · intro p d
      by_cases hpd : p = caller ∧ d = doctorAddress
      · obtain ⟨h1, h2⟩ := hpd; subst h1; subst h2
        simp [appendPairState, writeGrantState, updFn2, writtenGrant]
      · simp only [appendPairState, writeGrantState]
        simp [updFn2, hpd]
        exact h.zero_absent p d
  | true =>
    rw [grantAccess_ok_old ident caller doctorAddress durationSeconds now s hp hd hnew]
    refine ⟨?_, ?_, ?_, ?_, ?_⟩
    · intro p d
      by_cases hpd : p = caller ∧ d = doctorAddress
      · obtain ⟨h1, h2⟩ := hpd; subst h1; subst h2
        simp [writeGrantState, updFn2, writtenGrant, (h.mem_pd p d).1 hnew]
      · simp [writeGrantState, updFn2, hpd, h.mem_pd p d]
    · intro p d
      by_cases hpd : p = caller ∧ d = doctorAddress
      · obtain ⟨h1, h2⟩ := hpd; subst h1; subst h2
        simp [writeGrantState, updFn2, writtenGrant, (h.mem_dp p d).1 hnew]
      · simp [writeGrantState, updFn2, hpd, h.mem_dp p d]
    · intro p
      simpa [writeGrantState] using h.nodup_pd p
    · intro d
      simpa [writeGrantState] using h.nodup_dp d
    · intro p d
      by_cases hpd : p = caller ∧ d = doctorAddress
      · obtain ⟨h1, h2⟩ := hpd; subst h1; subst h2
        simp [writeGrantState, updFn2, writtenGrant]
      · simp [writeGrantState, updFn2, hpd]
        exact h.zero_absent p d

theorem acInv_revoke (ident : Identity) (caller doctorAddress : Address)
    (s : ACState) (h : ACInv s) :
    ACInv (revokeAccess ident caller doctorAddress s).2 := by
  cases hp : ident.isPatient caller with
  | false =>
    rw [revokeAccess_notPatient ident caller doctorAddress s hp]
    exact h
  | true =>
  cases hex : (s.accessGrants caller doctorAddress).exists_ with
  | false =>
    rw [revokeAccess_notFound ident caller doctorAddress s hp hex]
    exact h
  | true =>
    rw [revokeAccess_ok ident caller doctorAddress s hp hex]
    refine ⟨?_, ?_, ?_, ?_, ?_⟩
    · intro p d
      by_cases hpd : p = caller ∧ d = doctorAddress
      · obtain ⟨h1, h2⟩ := hpd; subst h1; subst h2
        simpa [writeGrantState, updFn2, hex] using h.mem_pd p d
      · simp [writeGrantState, updFn2, hpd, h.mem_pd p d]
    · intro p d
      by_cases hpd : p = caller ∧ d = doctorAddress
      · obtain ⟨h1, h2⟩ := hpd; subst h1; subst h2
        simpa [writeGrantState, updFn2, hex] using h.mem_dp p d
      · simp [writeGrantState, updFn2, hpd, h.mem_dp p d]
    · intro p
      simpa [writeGrantState] using h.nodup_pd p
    · intro d
      simpa [writeGrantState] using h.nodup_dp d
    · intro p d
      by_cases hpd : p = caller ∧ d = doctorAddress
      · obtain ⟨h1, h2⟩ := hpd; subst h1; subst h2
        simp [writeGrantState, updFn2, hex]
      · simp [writeGrantState, updFn2, hpd]
        exact h.zero_absent p d

theorem acInv_of_reachable (s : ACState) (h : ACReachable s) : ACInv s := by
  induction h with
  | init => exact acInv_init
  | grant ident caller doctorAddress durationSeconds now s _ ih =>
      exact acInv_grant ident caller doctorAddress durationSeconds now s ih
  | revoke ident caller doctorAddress s _ ih =>
      exact acInv_revoke ident caller doctorAddress s ih

theorem createRecord_notDoctor (ident : Identity) (caller patientAddress : Address)
    (recordHash : Nat) (ipfsCid : String) (recordType : RecordType)
    (now : Nat) (s : RegState)
    (hd : ident.isVerifiedDoctor caller = false) :
    createRecord ident caller patientAddress recordHash ipfsCid recordType now s =
      (.error .onlyVerifiedDoctorsCanCreate, s) := by
  simp [createRecord, hd]

theorem createRecord_notPatient (ident : Identity) (caller patientAddress : Address)
    (recordHash : Nat) (ipfsCid : String) (recordType : RecordType)
    (now : Nat) (s : RegState)
    (hd : ident.isVerifiedDoctor caller = true)
    (hp : ident.isPatient patientAddress = false) :
    createRecord ident caller patientAddress recordHash ipfsCid recordType now s =
      (.error .patientNotRegistered, s) := by
  simp [createRecord, hd, hp]

theorem createRecord_ok (ident : Identity) (caller patientAddress : Address)
    (recordHash : Nat) (ipfsCid : String) (recordType : RecordType)
    (now : Nat) (s : RegState)
    (hd : ident.isVerifiedDoctor caller = true)
    (hp : ident.isPatient patientAddress = true) :
    createRecord ident caller patientAddress recordHash ipfsCid recordType now s =
      (.ok s.recordCount, createWriteState s caller patientAddress
        (createdEntry caller patientAddress recordHash ipfsCid recordType now)) := by
  simp [createRecord, hd, hp, createWriteState, createdEntry]

theorem toggleVisibility_notFound (caller : Address) (recordId : Nat)
    (s : RegState) (hex : (s.records recordId).exists_ = false) :
    toggleVisibility caller recordId s = (.error .recordNotFound, s) := by
  simp [toggleVisibility, hex]

theorem toggleVisibility_notPatient (caller : Address) (recordId : Nat)
    (s : RegState) (hex : (s.records recordId).exists_ = true)
    (hpat : (s.records recordId).patient ≠ caller) :
    toggleVisibility caller recordId s = (.error .onlyPatientCanToggle, s) := by
  simp [toggleVisibility, hex, hpat]

theorem toggleVisibility_ok (caller : Address) (recordId : Nat) (s : RegState)
    (hex : (s.records recordId).exists_ = true)
    (hpat : (s.records recordId).patient = caller) :
    toggleVisibility caller recordId s = (.ok (), toggleWriteState s recordId) := by
  simp [toggleVisibility, hex, hpat, toggleWriteState]

theorem regInv_init : RegInv RegState.init := by
  intro i
  simp [RegState.init, RecordEntry.zero]

theorem regInv_create (ident : Identity) (caller patientAddress : Address)
    (recordHash : Nat) (ipfsCid : String) (recordType : RecordType)
    (now : Nat) (s : RegState) (h : RegInv s) :
    RegInv (createRecord ident caller patientAddress recordHash ipfsCid
      recordType now s).2 := by
  cases hd : ident.isVerifiedDoctor caller with
  | false =>
    rw [createRecord_notDoctor ident caller patientAddress recordHash ipfsCid
      recordType now s hd]
    exact h
  | true =>
  cases hp : ident.isPatient patientAddress with
  | false =>
    rw [createRecord_notPatient ident caller patientAddress recordHash ipfsCid
      recordType now s hd hp]
    exact h
  | true =>
    rw [createRecord_ok ident caller patientAddress recordHash ipfsCid
      recordType now s hd hp]
    intro i
    by_cases hi : i = s.recordCount
    · subst hi
      simp [createWriteState, createdEntry, updRec]
    · have := h i
      simp [createWriteState, createdEntry, updRec, hi, this]
      omega

theorem regInv_toggle (caller : Address) (recordId : Nat) (s : RegState)
    (h : RegInv s) : RegInv (toggleVisibility caller recordId s).2 := by
  cases hex : (s.records recordId).exists_ with
  | false =>
    rw [toggleVisibility_notFound caller recordId s hex]
    exact h
  | true =>
  by_cases hpat : (s.records recordId).patient = caller
  · rw [toggleVisibility_ok caller recordId s hex hpat]
    intro i
    by_cases hi : i = recordId
    · subst hi
      simpa [toggleWriteState, updRec, hex] using h i
    · simpa [toggleWriteState, updRec, hi] using h i
  · rw [toggleVisibility_notPatient caller recordId s hex hpat]
    exact h

theorem regInv_of_reachable (s : RegState) (h : RegReachable s) : RegInv s := by
  induction h with
  | init => exact regInv_init
  | create ident caller patientAddress recordHash ipfsCid recordType now s _ ih =>
      exact regInv_create ident caller patientAddress recordHash ipfsCid
        recordType now s ih
  | toggle caller recordId s _ ih => exact regInv_toggle caller recordId s ih

theorem getActivePatientCount_eq_countP (s : ACState) (doctorAddress : Address)
    (now : Nat) :
    getActivePatientCount s doctorAddress now =
      (s.doctorPatients doctorAddress).countP (grantActive s doctorAddress now) := by
  unfold getActivePatientCount
  have key : ∀ (l : List Address) (n : Nat),
      l.foldl
        (fun activeCount p =>
          let grant := s.accessGrants p doctorAddress
          if grant.isGranted = true then
            if grant.expiresAt = 0 ∨ now ≤ grant.expiresAt then activeCount + 1
            else activeCount
          else activeCount) n
        = n + l.countP (grantActive s doctorAddress now) := by
    intro l
    induction l with
    | nil => intro n; simp
    | cons x xs ih =>
      intro n
      cases hg : (s.accessGrants x doctorAddress).isGranted with
      | false => simp [List.countP_cons, grantActive, hg, ih]
      | true =>
        by_cases hexp : (s.accessGrants x doctorAddress).expiresAt = 0 ∨
            now ≤ (s.accessGrants x doctorAddress).expiresAt
        · rcases hexp with hz | hle
          · simp [List.countP_cons, grantActive, hg, hz, ih]
            omega
          · simp [List.countP_cons, grantActive, hg, hle, ih]
            omega
        · push_neg at hexp
          obtain ⟨hz, hlt⟩ := hexp
          have hnle : ¬ now ≤ (s.accessGrants x doctorAddress).expiresAt := by
            omega
          simp [List.countP_cons, grantActive, hg, hz, hnle, ih]
  simpa using key (s.doctorPatients doctorAddress) 0

theorem getVisiblePatientRecords_eq_filter (s : RegState) (patient : Address) :
    getVisiblePatientRecords s patient =
      (s.patientRecords patient).filter (fun i => (s.records i).isVisible) := by
  unfold getVisiblePatientRecords
  have key : ∀ (l : List Nat) (acc : List Nat),
      l.foldl
        (fun visibleRecords i =>
          if (s.records i).isVisible = true then visibleRecords ++ [i]
          else visibleRecords) acc
        = acc ++ l.filter (fun i => (s.records i).isVisible) := by
    intro l
    induction l with
    | nil => intro acc; simp
    | cons x xs ih =>
      intro acc
      cases hv : (s.records x).isVisible with
      | false => simp [hv, ih]
      | true => simp [hv, ih]
  simpa using key (s.patientRecords patient) []

theorem updFn2_self {β : Type} (m : Address → Address → β) (a b : Address) :
    updFn2 m a b (m a b) = m := by
  funext x y
  unfold updFn2
  by_cases h : x = a ∧ y = b
  · obtain ⟨h1, h2⟩ := h; subst h1; subst h2; simp
  · simp [h]

theorem updRec_same (m : Nat → RecordEntry) (i : Nat) (v : RecordEntry) :
    updRec m i v i = v := by
  simp [updRec]

theorem updRec_updRec (m : Nat → RecordEntry) (i : Nat) (a b : RecordEntry) :
    updRec (updRec m i a) i b = updRec m i b := by
  funext j
  unfold updRec
  by_cases h : j = i <;> simp [h]

theorem updRec_self (m : Nat → RecordEntry) (i : Nat) : updRec m i (m i) = m := by
  funext j
  unfold updRec
  by_cases h : j = i
  · subst h; simp
  · simp [h]

theorem regState_ext (s t : RegState) (h1 : s.records = t.records)
    (h2 : s.recordCount = t.recordCount)
    (h3 : s.patientRecords = t.patientRecords)
    (h4 : s.doctorRecords = t.doctorRecords) : s = t := by
  cases s; cases t
  cases h1; cases h2; cases h3; cases h4
  rfl

theorem acState_ext (s t : ACState) (h1 : s.accessGrants = t.accessGrants)
    (h2 : s.patientDoctors = t.patientDoctors)
    (h3 : s.doctorPatients = t.doctorPatients) : s = t := by
  cases s; cases t
  cases h1; cases h2; cases h3
  rfl

/-- Two visibility flips restore the record map (and hence the whole state). -/
theorem toggleWriteState_involutive (s : RegState) (recordId : Nat) :
    toggleWriteState (toggleWriteState s recordId) recordId = s := by
  apply regState_ext
  · funext j
    by_cases hj : j = recordId
    · subst hj
      rcases hmr : s.records j with ⟨rh, cid, pat, doc, rt, vis, cat, ex⟩
      simp [toggleWriteState, updRec, hmr]
    · simp [toggleWriteState, updRec, hj]
  · rfl
  · rfl
  · rfl

/-- Claim C1: `hasAccess` returns false when no grant record exists, false
when the stored granted flag is false, false when `expiresAt > 0` and
`now > expiresAt`, and true otherwise; in particular the grant is still
active at `now = expiresAt`.  `hasAccess` is a `view` function: in this
embedding it returns only a `Bool` and no state, so it mutates nothing, and
expiry is re-evaluated from `now` on every call. -/
theorem claim1_hasAccess_spec (s : ACState) (p d : Address) (now : Nat) :
    ((s.accessGrants p d).exists_ = false → hasAccess s p d now = false) ∧
    ((s.accessGrants p d).isGranted = false → hasAccess s p d now = false) ∧
    ((s.accessGrants p d).expiresAt > 0 → now > (s.accessGrants p d).expiresAt →
      hasAccess s p d now = false) ∧
    ((s.accessGrants p d).exists_ = true → (s.accessGrants p d).isGranted = true →
      ((s.accessGrants p d).expiresAt = 0 ∨ now ≤ (s.accessGrants p d).expiresAt) →
      hasAccess s p d now = true) ∧
    ((s.accessGrants p d).exists_ = true → (s.accessGrants p d).isGranted = true →
      now = (s.accessGrants p d).expiresAt → hasAccess s p d now = true) := by
  refine ⟨?_, ?_, ?_, ?_, ?_⟩
  · intro hex
    simp [hasAccess, hex]
  · intro hg
    simp [hasAccess, hg]
  · intro hpos hgt
    by_cases hfirst : (s.accessGrants p d).exists_ = false ∨
        (s.accessGrants p d).isGranted = false
    · simp [hasAccess, hfirst]
    · simp [hasAccess, hfirst, hpos, hgt]
  · intro hex hg hnotexp
    have hfirst : ¬((s.accessGrants p d).exists_ = false ∨
        (s.accessGrants p d).isGranted = false) := by
      simp [hex, hg]
    have hsecond : ¬((s.accessGrants p d).expiresAt > 0 ∧
        now > (s.accessGrants p d).expiresAt) := by
      rcases hnotexp with hz | hle
      · simp [hz]
      · intro hc; omega
    simp [hasAccess, hfirst, hsecond]
  · intro hex hg hnoweq
    have hfirst : ¬((s.accessGrants p d).exists_ = false ∨
        (s.accessGrants p d).isGranted = false) := by
      simp [hex, hg]
    have hsecond : ¬((s.accessGrants p d).expiresAt > 0 ∧
        now > (s.accessGrants p d).expiresAt) := by
      intro hc; omega
    simp [hasAccess, hfirst, hsecond]

theorem claim1_hasAccess_spec_witness :
    hasAccess acDemo 1 2 3700 = true :=
  (claim1_hasAccess_spec acDemo 1 2 3700).2.2.2.2 (by decide) (by decide)
    (by decide)

/-- Claim C4: `getRecord` fails with `NotFound` on an unallocated id, fails
with `AccessDenied` unless the caller is the record's patient or author or
the record is visible, and otherwise returns the stored fields.  The check
reads only registry storage: with any access-control state in which the
caller holds an active grant from the record's patient, a hidden record by
another author is still denied. -/
theorem claim4_getRecord_spec (caller : Address) (recordId : Nat) (s : RegState) :
    ((s.records recordId).exists_ = false →
      getRecord caller recordId s = .error .recordNotFound) ∧
    ((s.records recordId).exists_ = true →
      (s.records recordId).patient ≠ caller →
      (s.records recordId).doctor ≠ caller →
      (s.records recordId).isVisible = false →
      getRecord caller recordId s = .error .accessDenied) ∧
    ((s.records recordId).exists_ = true →
      ((s.records recordId).patient = caller ∨
        (s.records recordId).doctor = caller ∨
        (s.records recordId).isVisible = true) →
      getRecord caller recordId s = .ok ((s.records recordId).recordHash,
        (s.records recordId).ipfsCid, (s.records recordId).patient,
        (s.records recordId).doctor, (s.records recordId).recordType,
        (s.records recordId).isVisible, (s.records recordId).createdAt)) ∧
    (∀ (acs : ACState) (now : Nat),
      hasAccess acs (s.records recordId).patient caller now = true →
      (s.records recordId).exists_ = true →
      (s.records recordId).patient ≠ caller →
      (s.records recordId).doctor ≠ caller →
      (s.records recordId).isVisible = false →
      getRecord caller recordId s = .error .accessDenied) := by
  refine ⟨?_, ?_, ?_, ?_⟩
  · intro hex
    simp [getRecord, hex]
  · intro hex hpat hdoc hvis
    simp [getRecord, hex, hpat, hdoc, hvis]
  · intro hex hacc
    simp [getRecord, hex, hacc]
  · intro acs now _ hex hpat hdoc hvis
    simp [getRecord, hex, hpat, hdoc, hvis]

theorem claim4_getRecord_spec_witness :
    getRecord 3 0 regDemoHidden = .error .accessDenied :=
  (claim4_getRecord_spec 3 0 regDemoHidden).2.2.2 acDemoPerm 100 (by decide)
    (by decide) (by decide) (by decide) (by decide)

/-- Claim C9: `getVisiblePatientRecords` returns exactly the subsequence of
the patient's full record-id list whose records are visible, in the original
relative order; it is a `view` function (no state component in its type), so
it mutates nothing. -/
theorem claim9_getVisiblePatientRecords_spec (s : RegState) (patient : Address) :
    getVisiblePatientRecords s patient =
      (s.patientRecords patient).filter (fun i => (s.records i).isVisible) ∧
    (getVisiblePatientRecords s patient).Sublist (s.patientRecords patient) ∧
    ∀ i, i ∈ getVisiblePatientRecords s patient ↔
      (i ∈ s.patientRecords patient ∧ (s.records i).isVisible = true) := by
  refine ⟨getVisiblePatientRecords_eq_filter s patient, ?_, ?_⟩
  · rw [getVisiblePatientRecords_eq_filter s patient]
    exact List.filter_sublist _
  · intro i
    rw [getVisiblePatientRecords_eq_filter s patient]
    simp [List.mem_filter]

theorem claim9_getVisiblePatientRecords_spec_witness :
    getVisiblePatientRecords regDemoHidden 1 =
      (regDemoHidden.patientRecords 1).filter
        (fun i => (regDemoHidden.records i).isVisible) :=
  (claim9_getVisiblePatientRecords_spec regDemoHidden 1).1

/-- Claim C10: for a pair with no grant record, `getAccessGrant` does not
fail (it is total) and returns `(false, 0, 0, false)` in any reachable
state; the returned `isExpired` flag is computed from the stored `expiresAt`
and `now` alone, so a revoked but unexpired grant reports
`isGranted = false` together with `isExpired = false`. -/
theorem claim10_getAccessGrant_spec :
    (∀ (s : ACState) (p d : Address) (now : Nat), ACReachable s →
      (s.accessGrants p d).exists_ = false →
      getAccessGrant s p d now = (false, 0, 0, false)) ∧
    (∀ (s : ACState) (p d : Address) (now : Nat),
      (getAccessGrant s p d now).2.2.2 =
        decide ((s.accessGrants p d).expiresAt > 0 ∧
          now > (s.accessGrants p d).expiresAt)) ∧
    (∀ (s : ACState) (p d : Address) (now : Nat),
      (s.accessGrants p d).isGranted = false →
      ((s.accessGrants p d).expiresAt = 0 ∨
        now ≤ (s.accessGrants p d).expiresAt) →
      (getAccessGrant s p d now).1 = false ∧
      (getAccessGrant s p d now).2.2.2 = false) := by
  refine ⟨?_, ?_, ?_⟩
  · intro s p d now hreach hex
    have hzero := (acInv_of_reachable s hreach).zero_absent p d hex
    simp [getAccessGrant, hzero, AccessGrant.zero]
  · intro s p d now
    simp [getAccessGrant]
  · intro s p d now hg hnotexp
    have hsecond : ¬((s.accessGrants p d).expiresAt > 0 ∧
        now > (s.accessGrants p d).expiresAt) := by
      rcases hnotexp with hz | hle
      · simp [hz]
      · intro hc; omega
    simp [getAccessGrant, hg, hsecond]

theorem claim10_getAccessGrant_spec_witness :
    getAccessGrant ACState.init 1 2 5 = (false, 0, 0, false) :=
  claim10_getAccessGrant_spec.1 ACState.init 1 2 5 ACReachable.init (by decide)

/-- Claim C5: for a patient caller, `revokeAccess` fails with `NotFound` iff
no grant record exists for the pair; when a record exists (even one already
revoked) the call succeeds and clears only the `isGranted` flag, leaving
`grantedAt`, `expiresAt`, the `exists` flag, both reverse-index lists and
every other pair's grant record unchanged; re-revoking an existing revoked
grant succeeds and leaves the state identical, and the pair stays in both
lists. -/
theorem claim5_revokeAccess_spec (ident : Identity) (caller doctorAddress : Address)
    (s : ACState) (hp : ident.isPatient caller = true) :
    ((s.accessGrants caller doctorAddress).exists_ = false ↔
      revokeAccess ident caller doctorAddress s = (.error .noAccessGrantFound, s)) ∧
    ((s.accessGrants caller doctorAddress).exists_ = true →
      (revokeAccess ident caller doctorAddress s).1 = .ok () ∧
      (revokeAccess ident caller doctorAddress s).2.accessGrants caller doctorAddress =
        { s.accessGrants caller doctorAddress with isGranted := false } ∧
      (∀ p d, ¬(p = caller ∧ d = doctorAddress) →
        (revokeAccess ident caller doctorAddress s).2.accessGrants p d =
          s.accessGrants p d) ∧
      (revokeAccess ident caller doctorAddress s).2.patientDoctors =
        s.patientDoctors ∧
      (revokeAccess ident caller doctorAddress s).2.doctorPatients =
        s.doctorPatients) ∧
    ((s.accessGrants caller doctorAddress).exists_ = true →
      (s.accessGrants caller doctorAddress).isGranted = false →
      revokeAccess ident caller doctorAddress s = (.ok (), s)) := by
  refine ⟨⟨?_, ?_⟩, ?_, ?_⟩
  · intro hex
    exact revokeAccess_notFound ident caller doctorAddress s hp hex
  · intro heq
    cases hex : (s.accessGrants caller doctorAddress).exists_ with
    | false => rfl
    | true =>
      exfalso
      rw [revokeAccess_ok ident caller doctorAddress s hp hex] at heq
      simpa using congrArg Prod.fst heq
  · intro hex
    rw [revokeAccess_ok ident caller doctorAddress s hp hex]
    refine ⟨rfl, ?_, ?_, rfl, rfl⟩
    · simp [writeGrantState, updFn2]
    · intro p d hpd
      simp [writeGrantState, updFn2, hpd]
  · intro hex hg
    rw [revokeAccess_ok ident caller doctorAddress s hp hex]
    have hgr : ({ s.accessGrants caller doctorAddress with isGranted := false } :
        AccessGrant) = s.accessGrants caller doctorAddress := by
      rcases hacc : s.accessGrants caller doctorAddress with ⟨g1, g2, g3, g4⟩
      rw [hacc] at hg
      simp only [] at hg
      subst hg
      rfl
    rw [hgr]
    have hst : writeGrantState s caller doctorAddress
        (s.accessGrants caller doctorAddress) = s := by
      apply acState_ext
      · simp [writeGrantState, updFn2_self]
      · rfl
      · rfl
    rw [hst]

theorem claim5_revokeAccess_spec_witness :
    (revokeAccess identAll 1 2 acDemo).1 = .ok () :=
  ((claim5_revokeAccess_spec identAll 1 2 acDemo (by decide)).2.1 (by decide)).1

/-- Claim C6: whenever `createRecord`, `toggleVisibility`, `grantAccess` or
`revokeAccess` returns an error, the resulting state equals the initial
state: every precondition is checked before any mutation, so a failing call
never partially applies one. -/
theorem claim6_failure_frame :
    (∀ (ident : Identity) (caller patientAddress : Address) (recordHash : Nat)
      (ipfsCid : String) (recordType : RecordType) (now : Nat) (s : RegState)
      (e : RegErr),
      (createRecord ident caller patientAddress recordHash ipfsCid recordType
        now s).1 = .error e →
      (createRecord ident caller patientAddress recordHash ipfsCid recordType
        now s).2 = s) ∧
    (∀ (caller : Address) (recordId : Nat) (s : RegState) (e : RegErr),
      (toggleVisibility caller recordId s).1 = .error e →
      (toggleVisibility caller recordId s).2 = s) ∧
    (∀ (ident : Identity) (caller doctorAddress : Address)
      (durationSeconds now : Nat) (s : ACState) (e : ACErr),
      (grantAccess ident caller doctorAddress durationSeconds now s).1 =
        .error e →
      (grantAccess ident caller doctorAddress durationSeconds now s).2 = s) ∧
    (∀ (ident : Identity) (caller doctorAddress : Address) (s : ACState)
      (e : ACErr),
      (revokeAccess ident caller doctorAddress s).1 = .error e →
      (revokeAccess ident caller doctorAddress s).2 = s) := by
  refine ⟨?_, ?_, ?_, ?_⟩
  · intro ident caller patientAddress recordHash ipfsCid recordType now s e herr
    cases hd : ident.isVerifiedDoctor caller with
    | false =>
      rw [createRecord_notDoctor ident caller patientAddress recordHash ipfsCid
        recordType now s hd]
    | true =>
      cases hp : ident.isPatient patientAddress with
      | false =>
        rw [createRecord_notPatient ident caller patientAddress recordHash
          ipfsCid recordType now s hd hp]
      | true =>
        rw [createRecord_ok ident caller patientAddress recordHash ipfsCid
          recordType now s hd hp] at herr
        simp at herr
  · intro caller recordId s e herr
    cases hex : (s.records recordId).exists_ with
    | false => rw [toggleVisibility_notFound caller recordId s hex]
    | true =>
      by_cases hpat : (s.records recordId).patient = caller
      · rw [toggleVisibility_ok caller recordId s hex hpat] at herr
        simp at herr
      · rw [toggleVisibility_notPatient caller recordId s hex hpat]
  · intro ident caller doctorAddress durationSeconds now s e herr
    cases hp : ident.isPatient caller with
    | false =>
      rw [grantAccess_notPatient ident caller doctorAddress durationSeconds
        now s hp]
    | true =>
      cases hd : ident.isVerifiedDoctor doctorAddress with
      | false =>
        rw [grantAccess_notDoctor ident caller doctorAddress durationSeconds
          now s hp hd]
      | true =>
        cases hnew : (s.accessGrants caller doctorAddress).exists_ with
        | false =>
          rw [grantAccess_ok_new ident caller doctorAddress durationSeconds
            now s hp hd hnew] at herr
          simp at herr
        | true =>
          rw [grantAccess_ok_old ident caller doctorAddress durationSeconds
            now s hp hd hnew] at herr
          simp at herr
  · intro ident caller doctorAddress s e herr
    cases hp : ident.isPatient caller with
    | false => rw [revokeAccess_notPatient ident caller doctorAddress s hp]
    | true =>
      cases hex : (s.accessGrants caller doctorAddress).exists_ with
      | false => rw [revokeAccess_notFound ident caller doctorAddress s hp hex]
      | true =>
        rw [revokeAccess_ok ident caller doctorAddress s hp hex] at herr
        simp at herr

theorem claim6_failure_frame_witness :
    (createRecord identNone 1 2 0 "" RecordType.PRESCRIPTION 0
      RegState.init).2 = RegState.init :=
  claim6_failure_frame.1 identNone 1 2 0 "" RecordType.PRESCRIPTION 0
    RegState.init .onlyVerifiedDoctorsCanCreate rfl

/-- Claim C7: `toggleVisibility` fails with `NotFound` on an unallocated id
and with `Unauthorized` unless the caller is the record's patient; a
successful call negates exactly the record's `isVisible` flag, leaving its
other fields, all other records, the count and both index lists unchanged;
two successive successful toggles restore the exact initial state. -/
theorem claim7_toggleVisibility_spec (caller : Address) (recordId : Nat)
    (s : RegState) :
    ((s.records recordId).exists_ = false →
      toggleVisibility caller recordId s = (.error .recordNotFound, s)) ∧
    ((s.records recordId).exists_ = true →
      (s.records recordId).patient ≠ caller →
      toggleVisibility caller recordId s = (.error .onlyPatientCanToggle, s)) ∧
    ((s.records recordId).exists_ = true →
      (s.records recordId).patient = caller →
      (toggleVisibility caller recordId s).1 = .ok () ∧
      ((toggleVisibility caller recordId s).2.records recordId).isVisible =
        !(s.records recordId).isVisible ∧
      (toggleVisibility caller recordId s).2.records recordId =
        { s.records recordId with isVisible := !(s.records recordId).isVisible } ∧
      (∀ j, j ≠ recordId →
        (toggleVisibility caller recordId s).2.records j = s.records j) ∧
      (toggleVisibility caller recordId s).2.recordCount = s.recordCount ∧
      (toggleVisibility caller recordId s).2.patientRecords = s.patientRecords ∧
      (toggleVisibility caller recordId s).2.doctorRecords = s.doctorRecords) ∧
    ((s.records recordId).exists_ = true →
      (s.records recordId).patient = caller →
      (toggleVisibility caller recordId
        (toggleVisibility caller recordId s).2).2 = s) := by
  refine ⟨?_, ?_, ?_, ?_⟩
  · intro hex
    exact toggleVisibility_notFound caller recordId s hex
  · intro hex hpat
    exact toggleVisibility_notPatient caller recordId s hex hpat
  · intro hex hpat
    rw [toggleVisibility_ok caller recordId s hex hpat]
    refine ⟨rfl, ?_, ?_, ?_, rfl, rfl, rfl⟩
    · simp [toggleWriteState, updRec]
    · simp [toggleWriteState, updRec]
    · intro j hj
      simp [toggleWriteState, updRec, hj]
  · intro hex hpat
    rw [toggleVisibility_ok caller recordId s hex hpat]
    have hex2 : ((toggleWriteState s recordId).records recordId).exists_ = true := by
      simpa [toggleWriteState, updRec] using hex
    have hpat2 : ((toggleWriteState s recordId).records recordId).patient = caller := by
      simpa [toggleWriteState, updRec] using hpat
    show (toggleVisibility caller recordId (toggleWriteState s recordId)).2 = s
    rw [toggleVisibility_ok caller recordId (toggleWriteState s recordId) hex2 hpat2]
    exact toggleWriteState_involutive s recordId

theorem claim7_toggleVisibility_spec_witness :
    (toggleVisibility 1 0 (toggleVisibility 1 0 regDemo).2).2 = regDemo :=
  (claim7_toggleVisibility_spec 1 0 regDemo).2.2.2 (by decide) (by decide)

theorem countP_congr_mem {α : Type} (f g : α → Bool) :
    ∀ (l : List α), (∀ a ∈ l, f a = g a) → l.countP f = l.countP g := by
  intro l
  induction l with
  | nil => intro _; rfl
  | cons x xs ih =>
    intro h
    have hx := h x (by simp)
    have hxs : ∀ a ∈ xs, f a = g a := fun a ha => h a (by simp [ha])
    simp [List.countP_cons, hx, ih hxs]

/-- On a pair whose grant record exists, the loop predicate of
`getActivePatientCount` coincides with `hasAccess`. -/
theorem grantActive_eq_hasAccess (s : ACState) (doctorAddress p : Address)
    (now : Nat) (hex : (s.accessGrants p doctorAddress).exists_ = true) :
    grantActive s doctorAddress now p = hasAccess s p doctorAddress now := by
  unfold grantActive hasAccess
  cases hg : (s.accessGrants p doctorAddress).isGranted with
  | false => simp [hex, hg]
  | true =>
    by_cases hz : (s.accessGrants p doctorAddress).expiresAt = 0
    · have hsecond : ¬((s.accessGrants p doctorAddress).expiresAt > 0 ∧
          now > (s.accessGrants p doctorAddress).expiresAt) := by
        simp [hz]
      simp [hex, hg, hz, hsecond]
    · by_cases hle : now ≤ (s.accessGrants p doctorAddress).expiresAt
      · have hsecond : ¬((s.accessGrants p doctorAddress).expiresAt > 0 ∧
            now > (s.accessGrants p doctorAddress).expiresAt) := by
          intro hc; omega
        simp [hex, hg, hz, hle, hsecond]
      · have hsecond : (s.accessGrants p doctorAddress).expiresAt > 0 ∧
            now > (s.accessGrants p doctorAddress).expiresAt := by
          omega
        simp [hex, hg, hz, hle, hsecond]

theorem hasAccess_exists_of_true (s : ACState) (p d : Address) (now : Nat)
    (h : hasAccess s p d now = true) : (s.accessGrants p d).exists_ = true := by
  cases hex : (s.accessGrants p d).exists_ with
  | false => simp [hasAccess, hex] at h
  | true => rfl

/-- Claim C2: `createRecord` succeeds iff the caller is a verified doctor
and the target a registered patient (doctor checked first); on success it
stores the record with `visible = true` at id `recordCount`, appends the id
to both index lists, increments `recordCount` and returns the new id; in
every reachable state the allocated ids are exactly `0, ..., recordCount-1`
(gap-free, never reused). -/
theorem claim2_createRecord_spec :
    (∀ (ident : Identity) (caller patientAddress : Address) (recordHash : Nat)
      (ipfsCid : String) (recordType : RecordType) (now : Nat) (s : RegState),
      ((∃ v, (createRecord ident caller patientAddress recordHash ipfsCid
          recordType now s).1 = .ok v) ↔
        (ident.isVerifiedDoctor caller = true ∧
          ident.isPatient patientAddress = true)) ∧
      (ident.isVerifiedDoctor caller = false →
        createRecord ident caller patientAddress recordHash ipfsCid recordType
          now s = (.error .onlyVerifiedDoctorsCanCreate, s)) ∧
      (ident.isVerifiedDoctor caller = true →
        ident.isPatient patientAddress = false →
        createRecord ident caller patientAddress recordHash ipfsCid recordType
          now s = (.error .patientNotRegistered, s)) ∧
      (ident.isVerifiedDoctor caller = true →
        ident.isPatient patientAddress = true →
        (createRecord ident caller patientAddress recordHash ipfsCid recordType
          now s).1 = .ok s.recordCount ∧
        (createRecord ident caller patientAddress recordHash ipfsCid recordType
          now s).2.records s.recordCount =
          createdEntry caller patientAddress recordHash ipfsCid recordType now ∧
        ((createRecord ident caller patientAddress recordHash ipfsCid recordType
          now s).2.records s.recordCount).isVisible = true ∧
        (∀ i, i ≠ s.recordCount →
          (createRecord ident caller patientAddress recordHash ipfsCid
            recordType now s).2.records i = s.records i) ∧
        (createRecord ident caller patientAddress recordHash ipfsCid recordType
          now s).2.recordCount = s.recordCount + 1 ∧
        (createRecord ident caller patientAddress recordHash ipfsCid recordType
          now s).2.patientRecords patientAddress =
          s.patientRecords patientAddress ++ [s.recordCount] ∧
        (createRecord ident caller patientAddress recordHash ipfsCid recordType
          now s).2.doctorRecords caller =
          s.doctorRecords caller ++ [s.recordCount])) ∧
    (∀ s : RegState, RegReachable s →
      ∀ i, (s.records i).exists_ = true ↔ i < s.recordCount) := by
  refine ⟨?_, ?_⟩
  · intro ident caller patientAddress recordHash ipfsCid recordType now s
    refine ⟨⟨?_, ?_⟩, ?_, ?_, ?_⟩
    · rintro ⟨v, hv⟩
      cases hd : ident.isVerifiedDoctor caller with
      | false =>
        rw [createRecord_notDoctor ident caller patientAddress recordHash
          ipfsCid recordType now s hd] at hv
        simp at hv
      | true =>
        cases hp : ident.isPatient patientAddress with
        | false =>
          rw [createRecord_notPatient ident caller patientAddress recordHash
            ipfsCid recordType now s hd hp] at hv
          simp at hv
        | true => exact ⟨rfl, rfl⟩
    · rintro ⟨hd, hp⟩
      exact ⟨s.recordCount, by
        rw [createRecord_ok ident caller patientAddress recordHash ipfsCid
          recordType now s hd hp]⟩
    · intro hd
      exact createRecord_notDoctor ident caller patientAddress recordHash
        ipfsCid recordType now s hd
    · intro hd hp
      exact createRecord_notPatient ident caller patientAddress recordHash
        ipfsCid recordType now s hd hp
    · intro hd hp
      rw [createRecord_ok ident caller patientAddress recordHash ipfsCid
        recordType now s hd hp]
      refine ⟨rfl, ?_, ?_, ?_, rfl, ?_, ?_⟩
      · simp [createWriteState, updRec]
      · simp [createWriteState, updRec, createdEntry]
      · intro i hi
        simp [createWriteState, updRec, hi]
      · simp [createWriteState, updFn]
      · simp [createWriteState, updFn]
  · intro s hreach
    exact regInv_of_reachable s hreach

theorem claim2_createRecord_spec_witness :
    (createRecord identAll 2 1 77 "QmDemoCid" RecordType.DIAGNOSIS 50
      RegState.init).1 = .ok 0 :=
  ((claim2_createRecord_spec.1 identAll 2 1 77 "QmDemoCid"
    RecordType.DIAGNOSIS 50 RegState.init).2.2.2 rfl rfl).1

/-- Claim C3: for a patient caller and a verified doctor target,
`grantAccess` overwrites the pair's grant record with `granted = true`,
`grantedAt = now` and `expiresAt = now + n` when `n > 0` else `0`; a pair
with no prior record is appended exactly once to both reverse-index lists
(all other lists untouched), while a pair with an existing record (granted
or revoked) leaves both index maps unchanged; hence in every reachable
state each pair occurs at most once in each list. -/
theorem claim3_grantAccess_spec :
    (∀ (ident : Identity) (caller doctorAddress : Address)
      (durationSeconds now : Nat) (s : ACState),
      ident.isPatient caller = true →
      ident.isVerifiedDoctor doctorAddress = true →
      (grantAccess ident caller doctorAddress durationSeconds now s).1 =
        .ok () ∧
      (grantAccess ident caller doctorAddress durationSeconds now
        s).2.accessGrants caller doctorAddress =
        writtenGrant durationSeconds now ∧
      (writtenGrant durationSeconds now).isGranted = true ∧
      (writtenGrant durationSeconds now).grantedAt = now ∧
      (writtenGrant durationSeconds now).expiresAt =
        (if durationSeconds > 0 then now + durationSeconds else 0) ∧
      ((s.accessGrants caller doctorAddress).exists_ = false →
        (grantAccess ident caller doctorAddress durationSeconds now
          s).2.patientDoctors caller =
          s.patientDoctors caller ++ [doctorAddress] ∧
        (grantAccess ident caller doctorAddress durationSeconds now
          s).2.doctorPatients doctorAddress =
          s.doctorPatients doctorAddress ++ [caller] ∧
        (∀ p, p ≠ caller →
          (grantAccess ident caller doctorAddress durationSeconds now
            s).2.patientDoctors p = s.patientDoctors p) ∧
        (∀ d, d ≠ doctorAddress →
          (grantAccess ident caller doctorAddress durationSeconds now
            s).2.doctorPatients d = s.doctorPatients d)) ∧
      ((s.accessGrants caller doctorAddress).exists_ = true →
        (grantAccess ident caller doctorAddress durationSeconds now
          s).2.patientDoctors = s.patientDoctors ∧
        (grantAccess ident caller doctorAddress durationSeconds now
          s).2.doctorPatients = s.doctorPatients)) ∧
    (∀ s : ACState, ACReachable s → ∀ p d : Address,
      List.count d (s.patientDoctors p) ≤ 1 ∧
      List.count p (s.doctorPatients d) ≤ 1) := by
  refine ⟨?_, ?_⟩
  · intro ident caller doctorAddress durationSeconds now s hp hd
    cases hnew : (s.accessGrants caller doctorAddress).exists_ with
    | false =>
      rw [grantAccess_ok_new ident caller doctorAddress durationSeconds now
        s hp hd hnew]
      refine ⟨rfl, ?_, rfl, rfl, rfl, ?_, ?_⟩
      · simp [appendPairState, writeGrantState, updFn2]
      · intro _
        refine ⟨?_, ?_, ?_, ?_⟩
        · simp [appendPairState, writeGrantState, updFn]
        · simp [appendPairState, writeGrantState, updFn]
        · intro p hpc
          simp [appendPairState, writeGrantState, updFn, hpc]
        · intro d hdc
          simp [appendPairState, writeGrantState, updFn, hdc]
      · intro hcontra
        exact absurd hcontra (by simp [hnew])
    | true =>
      rw [grantAccess_ok_old ident caller doctorAddress durationSeconds now
        s hp hd hnew]
      refine ⟨rfl, ?_, rfl, rfl, rfl, ?_, ?_⟩
      · simp [writeGrantState, updFn2]
      · intro hcontra
        exact absurd hcontra (by simp [hnew])
      · intro _
        exact ⟨rfl, rfl⟩
  · intro s hreach p d
    have hinv := acInv_of_reachable s hreach
    exact ⟨List.nodup_iff_count_le_one.1 (hinv.nodup_pd p) d,
      List.nodup_iff_count_le_one.1 (hinv.nodup_dp d) p⟩

theorem claim3_grantAccess_spec_witness :
    (grantAccess identAll 1 2 3600 100 ACState.init).1 = .ok () :=
  (claim3_grantAccess_spec.1 identAll 1 2 3600 100 ACState.init rfl rfl).1

/-- Claim C8: `getActivePatientCount` counts exactly the entries of the
doctor's historical patient list whose grant record is granted and not
expired; in every reachable state (where the list is duplicate-free and
carries all granted pairs) this equals the number of distinct patients for
which `hasAccess` returns true, enumerated by the duplicate-free filtered
list. -/
theorem claim8_getActivePatientCount_spec :
    (∀ (s : ACState) (doctorAddress : Address) (now : Nat),
      getActivePatientCount s doctorAddress now =
        (s.doctorPatients doctorAddress).countP
          (grantActive s doctorAddress now)) ∧
    (∀ (s : ACState) (doctorAddress : Address) (now : Nat), ACReachable s →
      getActivePatientCount s doctorAddress now =
        ((s.doctorPatients doctorAddress).filter
          (fun p => hasAccess s p doctorAddress now)).length ∧
      ((s.doctorPatients doctorAddress).filter
        (fun p => hasAccess s p doctorAddress now)).Nodup ∧
      (∀ p, hasAccess s p doctorAddress now = true →
        p ∈ (s.doctorPatients doctorAddress).filter
          (fun p => hasAccess s p doctorAddress now))) := by
  refine ⟨getActivePatientCount_eq_countP, ?_⟩
  intro s doctorAddress now hreach
  have hinv := acInv_of_reachable s hreach
  have hcong : (s.doctorPatients doctorAddress).countP
      (grantActive s doctorAddress now) =
      (s.doctorPatients doctorAddress).countP
        (fun p => hasAccess s p doctorAddress now) := by
    apply countP_congr_mem
    intro a ha
    exact grantActive_eq_hasAccess s doctorAddress a now
      ((hinv.mem_dp a doctorAddress).2 ha)
  refine ⟨?_, ?_, ?_⟩
  · rw [getActivePatientCount_eq_countP, hcong, List.countP_eq_length_filter]
  · exact (hinv.nodup_dp doctorAddress).filter _
  · intro p hp
    rw [List.mem_filter]
    exact ⟨(hinv.mem_dp p doctorAddress).1
      (hasAccess_exists_of_true s p doctorAddress now hp), by simpa using hp⟩

theorem claim8_getActivePatientCount_spec_witness :
    getActivePatientCount acDemo 2 200 =
      ((acDemo.doctorPatients 2).filter
        (fun p => hasAccess acDemo p 2 200)).length :=
  (claim8_getActivePatientCount_spec.2 acDemo 2 200
    (ACReachable.grant identAll 1 2 3600 100 ACState.init ACReachable.init)).1

end HealthSecure
